import Mathlib

/-!
# Verification of the exweb multipart upload orchestration

Shallow embedding of the `maiu` upload subsystem of the exweb repository:
the `VideoUpload` record model (`src/backend/maiu/models.py`), the request
serializers (`src/backend/maiu/serializers.py`), and the orchestrator
actions `initiate_upload`, `get_presigned_urls` and `complete_upload` of
`MaiuVideoViewSet` (`src/backend/maiu/views.py`).  Interaction with the
NCP object-storage client (`src/backend/maiu/services/ncp_storage.py`) is
modelled by passing each backend call's outcome in as a parameter and by
recording, in the operation's outcome, the exact calls the view issued to
the storage client, so that call counts and call arguments are provable.
-/

namespace Exweb

/-- `VideoUpload.STATUS_CHOICES` from `models.py`. -/
inductive Status where
  | pending
  | uploading
  | processing
  | completed
  | failed
deriving DecidableEq, Repr

/-- `VideoUpload.VISIBILITY_CHOICES` from `models.py` (`private` is a Lean
keyword, hence the guillemets). -/
inductive Visibility where
  | public
  | «private»
  | unlisted
deriving DecidableEq, Repr

/-- The `VideoUpload` model from `models.py`.  `upload_progress` is a float
in the source but only ever holds `0.0` (default) or `100.0` (set by
`complete_upload`), so it is embedded as a `Nat`.  Timestamps are opaque
`Nat` instants. -/
structure VideoUpload where
  id : String
  uploader : Nat
  title : String
  description : String
  original_filename : String
  file_size : Int
  mime_type : String
  duration : Option Nat
  object_key : String
  bucket_name : String
  status : Status
  upload_progress : Nat
  upload_id : String
  visibility : Visibility
  view_count : Nat
  created_at : Nat
  completed_at : Option Nat
deriving DecidableEq, Repr

/-- Allowed MIME types from `InitiateUploadSerializer.validate_mime_type`. -/
def allowed_types : List String :=
  ["video/mp4", "video/mov", "video/webm", "video/mkv"]

/-- `file_size` upper bound from `InitiateUploadSerializer`
(`max_value=10 * 1024 * 1024 * 1024`). -/
def MAX_FILE_SIZE : Nat := 10 * 1024 * 1024 * 1024

/-- The fixed chunk size from `initiate_upload` (`100 * 1024 * 1024`). -/
def chunk_size : Nat := 100 * 1024 * 1024

/-- `total_chunks = math.ceil(file_size / chunk_size)` from
`initiate_upload`.  The source computes this with Python float division;
for every `file_size ≤ 10 GiB` the quotient is at most `102.4`, far below
the 53-bit mantissa limit, so `math.ceil` of the float quotient coincides
with exact natural ceiling division, which is what we embed. -/
def total_chunks (file_size : Nat) : Nat :=
  (file_size + chunk_size - 1) / chunk_size

/-- The payload of `InitiateUploadSerializer`. -/
structure InitiateRequest where
  title : String
  description : String
  original_filename : String
  file_size : Int
  mime_type : String
  visibility : Visibility
deriving DecidableEq, Repr

/-- Validity per `InitiateUploadSerializer`: required bounded `CharField`s
for title/filename/mime type, `IntegerField(min_value=1, max_value=10GiB)`
for `file_size`, and the allowed-video-type check of `validate_mime_type`. -/
def initiateSerializerValid (r : InitiateRequest) : Bool :=
  r.title ≠ "" && r.title.length ≤ 200 &&
  r.original_filename ≠ "" && r.original_filename.length ≤ 255 &&
  decide (1 ≤ r.file_size) && decide (r.file_size ≤ (MAX_FILE_SIZE : Int)) &&
  r.mime_type ≠ "" && r.mime_type.length ≤ 100 &&
  allowed_types.contains r.mime_type

/-- The HTTP-level outcome of `initiate_upload`. -/
inductive InitiateResult where
  | badRequest
  | ok (video_upload_id upload_id object_key : String)
      (chunk_sz total : Nat)
  | serverError (msg : String)
deriving DecidableEq, Repr

/-- Outcome of one `initiate_upload` call: the response, the record that
was persisted (none when validation failed or the transaction rolled
back), and the calls issued to the storage client. -/
structure InitiateOutcome where
  result : InitiateResult
  record : Option VideoUpload
  initCalls : List (String × String)
  abortCalls : List (String × String)
deriving Repr

/-- `MaiuVideoViewSet.initiate_upload` (`views.py` lines 60-145).
Environment inputs: the authenticated `user` id, the generated
`object_key` and fresh record `id` and `created_at` (nondeterministic in
the source: uuid/clock), the storage client's answer to
`initiate_multipart_upload` (`storage_init`), and whether
`VideoUpload.objects.create` succeeds (`persist_ok`; on failure the
`transaction.atomic` block rolls back and the `except` handler returns a
500 response).  Note the source has no call to `abort_multipart_upload`
anywhere on this path, so `abortCalls` is `[]` in every branch. -/
def initiate_upload (user : Nat) (req : InitiateRequest)
    (object_key new_id : String) (created_at : Nat)
    (storage_init : Except String String) (persist_ok : Bool)
    (bucket : String) : InitiateOutcome :=
  if ¬ initiateSerializerValid req then
    ⟨.badRequest, none, [], []⟩
  else if ¬ (req.title ≠ "" && req.original_filename ≠ "" &&
      decide (0 < req.file_size) && req.mime_type ≠ "") then
    ⟨.badRequest, none, [], []⟩
  else
    match storage_init with
    | .error e => ⟨.serverError e, none, [(object_key, req.mime_type)], []⟩
    | .ok upload_id =>
      if persist_ok then
        let v : VideoUpload :=
          { id := new_id
            uploader := user
            title := req.title
            description := req.description
            original_filename := req.original_filename
            file_size := req.file_size
            mime_type := req.mime_type
            duration := none
            object_key := object_key
            bucket_name := bucket
            status := .pending
            upload_progress := 0
            upload_id := upload_id
            visibility := req.visibility
            view_count := 0
            created_at := created_at
            completed_at := none }
        ⟨.ok new_id upload_id object_key chunk_size
            (total_chunks req.file_size.toNat),
          some v, [(object_key, req.mime_type)], []⟩
      else
        ⟨.serverError "record creation failed", none,
          [(object_key, req.mime_type)], []⟩

/-- The HTTP-level outcome of `get_presigned_urls`. -/
inductive PresignResult where
  | forbidden
  | badRequest
  | ok (urls : List (Int × String))
  | serverError (msg : String)
deriving DecidableEq, Repr

/-- Outcome of one `get_presigned_urls` call: the response, the record as
the operation leaves it (the source never mutates or saves it on this
path), and the part numbers for which `generate_presigned_part_url` was
invoked on the storage client, in call order. -/
structure PresignOutcome where
  result : PresignResult
  record : VideoUpload
  presignCalls : List Int
deriving Repr

/-- The `for part_number in part_numbers` loop of `get_presigned_urls`:
each iteration calls the storage client; an exception aborts the loop and
surfaces as a 500.  Returns the calls made together with the accumulated
`(part_number, url)` pairs or the error. -/
def presignLoop (presign : Int → Except String String) :
    List Int → List Int × Except String (List (Int × String))
  | [] => ([], .ok [])
  | p :: rest =>
    match presign p with
    | .error e => ([p], .error e)
    | .ok url =>
      let (calls, res) := presignLoop presign rest
      (p :: calls,
        match res with
        | .error e => .error e
        | .ok urls => .ok ((p, url) :: urls))

/-- `MaiuVideoViewSet.get_presigned_urls` (`views.py` lines 147-186).
Guards, in source order: uploader-only access (403), then non-empty
`part_numbers` (400); then the presign loop.  The source checks neither
`status` nor the individual part numbers, and never writes the record. -/
def get_presigned_urls (v : VideoUpload) (user : Nat)
    (part_numbers : List Int)
    (presign : Int → Except String String) : PresignOutcome :=
  if v.uploader ≠ user then
    ⟨.forbidden, v, []⟩
  else if part_numbers.isEmpty then
    ⟨.badRequest, v, []⟩
  else
    match presignLoop presign part_numbers with
    | (calls, .error e) => ⟨.serverError e, v, calls⟩
    | (calls, .ok urls) => ⟨.ok urls, v, calls⟩

/-- One element of the `parts` payload of `complete_upload`
(`ChunkUploadSerializer`). -/
structure PartIn where
  part_number : Int
  etag : String
deriving DecidableEq, Repr

/-- Validity per `ChunkUploadSerializer`:
`part_number = IntegerField(min_value=1, max_value=10000)`,
`etag = CharField(max_length=100)` (required, non-blank). -/
def chunkSerializerValid (p : PartIn) : Bool :=
  decide (1 ≤ p.part_number) && decide (p.part_number ≤ 10000) &&
  p.etag ≠ "" && decide (p.etag.length ≤ 100)

/-- The HTTP-level outcome of `complete_upload`. -/
inductive CompleteResult where
  | forbidden
  | badRequest
  | ok
  | serverError (msg : String)
deriving DecidableEq, Repr

/-- Outcome of one `complete_upload` call: the response, the record as the
operation leaves it, and the calls issued to the storage client's
`complete_multipart_upload`, each as
`(object_key, upload_id, [(PartNumber, ETag), ...])` with the parts in the
exact order the view passed them. -/
structure CompleteOutcome where
  result : CompleteResult
  record : VideoUpload
  completeCalls : List (String × String × List (Int × String))
deriving Repr

/-- The `parts` list `complete_upload` builds for the storage client: the
`if part_number and etag` filter (Python truthiness: `0` and `""` are
falsy) followed by the `{"PartNumber": ..., "ETag": ...}` projection, in
submission order. -/
def buildParts (parts_in : List PartIn) : List (Int × String) :=
  (parts_in.filter fun p => p.part_number ≠ 0 && p.etag ≠ "").map
    fun p => (p.part_number, p.etag)

/-- `MaiuVideoViewSet.complete_upload` (`views.py` lines 188-262).
Guards, in source order: uploader-only access (403), serializer validity
of every submitted part (400), the `if not validated_data` emptiness check
(400), then the `if part_number and etag` filter when building `parts` and
the `if not parts` check (400).  The `parts` list is passed to the storage
client in submission order — the source performs no sort.  On storage
success the record is saved with `status="completed"`,
`upload_progress=100.0`, `completed_at=now`; on a storage exception the
`except` handler saves the in-memory record with only `status="failed"`
changed.  The source checks the record's current status nowhere. -/
def complete_upload (v : VideoUpload) (user : Nat) (parts_in : List PartIn)
    (storage_complete : Except String Unit) (now : Nat) : CompleteOutcome :=
  if v.uploader ≠ user then
    ⟨.forbidden, v, []⟩
  else if ¬ parts_in.all chunkSerializerValid then
    ⟨.badRequest, v, []⟩
  else if parts_in.isEmpty then
    ⟨.badRequest, v, []⟩
  else if (buildParts parts_in).isEmpty then
    ⟨.badRequest, v, []⟩
  else
    match storage_complete with
    | .error e =>
      ⟨.serverError e, { v with status := .failed },
        [(v.object_key, v.upload_id, buildParts parts_in)]⟩
    | .ok _ =>
      ⟨.ok,
        { v with
            status := .completed
            upload_progress := 100
            completed_at := some now },
        [(v.object_key, v.upload_id, buildParts parts_in)]⟩

/-- `MaiuVideoViewSet.get_queryset` (`views.py` lines 44-58) over an
explicit database of records: an authenticated viewer gets
`Q(uploader=user) | Q(visibility="public")`, an anonymous viewer gets
`visibility="public"` only. -/
def get_queryset (db : List VideoUpload) (viewer : Option Nat) :
    List VideoUpload :=
  match viewer with
  | some user =>
    db.filter fun v => v.uploader == user || v.visibility == Visibility.public
  | none =>
    db.filter fun v => v.visibility == Visibility.public

/-- Rendered JSON field values of serializer output. -/
inductive JsonValue where
  | str (s : String)
  | num (n : Int)
deriving DecidableEq, Repr

/-- The database string of a `Status`, per `STATUS_CHOICES`. -/
def Status.toDb : Status → String
  | .pending => "pending"
  | .uploading => "uploading"
  | .processing => "processing"
  | .completed => "completed"
  | .failed => "failed"

/-- The database string of a `Visibility`, per `VISIBILITY_CHOICES`. -/
def Visibility.toDb : Visibility → String
  | .public => "public"
  | .«private» => "private"
  | .unlisted => "unlisted"

/-- `VideoUploadSerializer.Meta.fields` from `serializers.py`. -/
def serializer_fields : List String :=
  ["id", "title", "description", "original_filename", "file_size",
   "status", "upload_progress", "visibility", "view_count", "created_at",
   "uploader_username"]

/-- `VideoUploadSerializer` (`serializers.py` lines 42-66): the response
object for a record, as an association list in declared field order.
`uploader_username` is resolved from the uploader relation
(`source="uploader.username"`), supplied here by the `username` map. -/
def VideoUploadSerializer (v : VideoUpload) (username : Nat → String) :
    List (String × JsonValue) :=
  [("id", .str v.id),
   ("title", .str v.title),
   ("description", .str v.description),
   ("original_filename", .str v.original_filename),
   ("file_size", .num v.file_size),
   ("status", .str v.status.toDb),
   ("upload_progress", .num v.upload_progress),
   ("visibility", .str v.visibility.toDb),
   ("view_count", .num v.view_count),
   ("created_at", .num v.created_at),
   ("uploader_username", .str (username v.uploader))]

/-- The `list` operation's response body: every record of the
visibility-filtered queryset, serialized. -/
def list_response (db : List VideoUpload) (viewer : Option Nat)
    (username : Nat → String) : List (List (String × JsonValue)) :=
  (get_queryset db viewer).map fun v => VideoUploadSerializer v username

/-- One orchestrator operation applied to an existing record, with the
environment (caller, payload, storage outcome, clock) it ran under. -/
inductive Op where
  | presign (user : Nat) (part_numbers : List Int)
      (urls : Int → Except String String)
  | complete (user : Nat) (parts : List PartIn)
      (storage : Except String Unit) (now : Nat)

/-- The record state after one operation. -/
def applyOp (v : VideoUpload) : Op → VideoUpload
  | .presign user part_numbers urls =>
    (get_presigned_urls v user part_numbers urls).record
  | .complete user parts storage now =>
    (complete_upload v user parts storage now).record

/-- The record state after a sequence of operations. -/
def runOps (v : VideoUpload) (ops : List Op) : VideoUpload :=
  ops.foldl applyOp v

/-- A valid initiate payload used as a concrete test fixture (the example
scenario of the spec, §8). -/
def demoRequest : InitiateRequest :=
  { title := "Demo"
    description := ""
    original_filename := "clip.mp4"
    file_size := 250000000
    mime_type := "video/mp4"
    visibility := .«private» }

/-- The valid initiate payload with everything fixed except `file_size`. -/
def sizeOnlyRequest (f : Int) : InitiateRequest :=
  { title := "Demo"
    description := ""
    original_filename := "clip.mp4"
    file_size := f
    mime_type := "video/mp4"
    visibility := .«private» }

/-- The record that a successful `initiate_upload` of `demoRequest` by
user 7 persists (object key `"k"`, session `"sess-1"`, bucket `"b"`). -/
def demoRecord : VideoUpload :=
  { id := "id1"
    uploader := 7
    title := "Demo"
    description := ""
    original_filename := "clip.mp4"
    file_size := 250000000
    mime_type := "video/mp4"
    duration := none
    object_key := "k"
    bucket_name := "b"
    status := .pending
    upload_progress := 0
    upload_id := "sess-1"
    visibility := .«private»
    view_count := 0
    created_at := 0
    completed_at := none }

/-- Forward half of the completion invariant: a completed record carries
full progress and a completion timestamp. -/
def completedInvariant (v : VideoUpload) : Prop :=
  v.status = Status.completed → v.upload_progress = 100 ∧ v.completed_at ≠ none

/-- `get_presigned_urls` never writes the record back. -/
lemma get_presigned_urls_record (v : VideoUpload) (user : Nat)
    (pns : List Int) (f : Int → Except String String) :
    (get_presigned_urls v user pns f).record = v := by
  unfold get_presigned_urls
  split
  · rfl
  · split
    · rfl
    · rcases hp : presignLoop f pns with ⟨calls, res⟩
      cases res <;> rfl

/-- `complete_upload` leaves the record unchanged, marks it failed with no
other field touched, or marks it completed with full progress and a
completion timestamp. -/
lemma complete_upload_record_cases (v : VideoUpload) (user : Nat)
    (parts_in : List PartIn) (sc : Except String Unit) (now : Nat) :
    (complete_upload v user parts_in sc now).record = v ∨
    (complete_upload v user parts_in sc now).record
      = { v with status := .failed } ∨
    (complete_upload v user parts_in sc now).record
      = { v with
            status := .completed
            upload_progress := 100
            completed_at := some now } := by
  unfold complete_upload
  split
  · exact Or.inl rfl
  · split
    · exact Or.inl rfl
    · split
      · exact Or.inl rfl
      · split
        · exact Or.inl rfl
        · cases sc
          · exact Or.inr (Or.inl rfl)
          · exact Or.inr (Or.inr rfl)

/-- When the caller owns the record and submits a non-empty,
serializer-valid parts list, `complete_upload` passes every guard and runs
the storage call with `buildParts parts_in`. -/
lemma complete_upload_run (v : VideoUpload) (user : Nat)
    (parts_in : List PartIn) (sc : Except String Unit) (now : Nat)
    (hown : v.uploader = user)
    (hvalid : parts_in.all chunkSerializerValid = true)
    (hne : parts_in ≠ []) :
    complete_upload v user parts_in sc now =
      match sc with
      | .error e =>
        ⟨.serverError e, { v with status := .failed },
          [(v.object_key, v.upload_id, buildParts parts_in)]⟩
      | .ok _ =>
        ⟨.ok,
          { v with
              status := .completed
              upload_progress := 100
              completed_at := some now },
          [(v.object_key, v.upload_id, buildParts parts_in)]⟩ := by
  have hemp : parts_in.isEmpty = false := by
    cases parts_in
    · exact absurd rfl hne
    · rfl
  have hbemp : (buildParts parts_in).isEmpty = false := by
    cases hp : parts_in with
    | nil => exact absurd hp hne
    | cons p rest =>
      have hpv : chunkSerializerValid p = true := by
        rw [hp] at hvalid
        exact (List.all_eq_true.mp hvalid) p (by simp)
      simp only [chunkSerializerValid, Bool.and_eq_true,
        decide_eq_true_iff] at hpv
      obtain ⟨⟨⟨h1, _⟩, h3⟩, _⟩ := hpv
      have hn0 : ¬ p.part_number = 0 := by omega
      simp [buildParts, hp, List.filter_cons, hn0, h3]
  unfold complete_upload
  rw [if_neg (by simp [hown]), if_neg (by simp [hvalid]),
    if_neg (by simp [hemp]), if_neg (by simp [hbemp])]

/-- With a serializer-valid parts list, the Python truthiness filter keeps
every part, so `buildParts` is the plain projection in submission order. -/
lemma buildParts_of_valid (parts_in : List PartIn)
    (hvalid : parts_in.all chunkSerializerValid = true) :
    buildParts parts_in = parts_in.map fun p => (p.part_number, p.etag) := by
  unfold buildParts
  congr 1
  apply List.filter_eq_self.mpr
  intro p hp
  have hpv : chunkSerializerValid p = true :=
    (List.all_eq_true.mp hvalid) p hp
  simp only [chunkSerializerValid, Bool.and_eq_true,
    decide_eq_true_iff] at hpv
  obtain ⟨⟨⟨h1, _⟩, h3⟩, _⟩ := hpv
  simp only [Bool.and_eq_true, decide_eq_true_iff, ne_eq]
  exact ⟨by omega, h3⟩

/-- When every storage presign call succeeds, the presign loop visits the
requested part numbers in order and returns their URLs. -/
lemma presignLoop_ok (u : Int → String) (pns : List Int) :
    presignLoop (fun p => Except.ok (u p)) pns
      = (pns, Except.ok (pns.map fun p => (p, u p))) := by
  induction pns with
  | nil => rfl
  | cons p rest ih => simp [presignLoop, ih]

/-- A serializer-valid initiate payload also passes the view's redundant
`if not all([...])` field check. -/
lemma initiate_all_check (req : InitiateRequest)
    (hv : initiateSerializerValid req = true) :
    (req.title ≠ "" && req.original_filename ≠ "" &&
      decide (0 < req.file_size) && req.mime_type ≠ "") = true := by
  simp only [initiateSerializerValid, Bool.and_eq_true,
    decide_eq_true_iff, ne_eq] at hv
  simp only [Bool.and_eq_true, decide_eq_true_iff, ne_eq]
  refine ⟨⟨⟨hv.1.1.1.1.1.1.1.1, hv.1.1.1.1.1.1.2⟩, ?_⟩, hv.1.1.2⟩
  have := hv.1.1.1.1.2
  omega

/-- C1 as stated is false: on a valid initiate where
`initiate_multipart` succeeded (`Except.ok "sess-1"`) and persistence then
failed, the error is surfaced with no record persisted, but the view
invokes `abort_multipart` on the key/session zero times, not once. -/
theorem C1_counterexample :
    (initiate_upload 7 demoRequest "k" "id1" 0 (Except.ok "sess-1") false
      "b").record = none ∧
    (initiate_upload 7 demoRequest "k" "id1" 0 (Except.ok "sess-1") false
      "b").result = InitiateResult.serverError "record creation failed" ∧
    ¬ (initiate_upload 7 demoRequest "k" "id1" 0 (Except.ok "sess-1") false
      "b").abortCalls.count ("k", "sess-1") = 1 := by
  decide

/-- C1 amended: the orchestrator performs no compensating abort at all —
on every initiate path `abort_multipart` is invoked zero times; when
storage succeeded and persistence then failed, the error is still
surfaced with no record persisted, but the remote multipart session is
left orphaned. -/
theorem C1_no_abort (user : Nat) (req : InitiateRequest) (key id : String)
    (t : Nat) (si : Except String String) (persist_ok : Bool)
    (bucket : String) :
    (initiate_upload user req key id t si persist_ok bucket).abortCalls
      = [] ∧
    (initiateSerializerValid req = true → ∀ sess : String,
      (initiate_upload user req key id t (Except.ok sess) false
        bucket).record = none ∧
      (initiate_upload user req key id t (Except.ok sess) false
        bucket).result
        = InitiateResult.serverError "record creation failed") := by
  constructor
  · unfold initiate_upload
    split
    · rfl
    split
    · rfl
    split
    · rfl
    split <;> rfl
  · intro hv sess
    have h2 := initiate_all_check req hv
    simp only [Bool.and_eq_true, decide_eq_true_iff, ne_eq] at h2
    unfold initiate_upload
    rw [if_neg (by simp [hv]),
      if_neg (by simp only [Bool.and_eq_true, decide_eq_true_iff, ne_eq,
        not_not]; exact h2)]
    exact ⟨rfl, rfl⟩

/-- Witness for C1 amended at a concrete valid request. -/
theorem C1_witness :
    (initiate_upload 7 demoRequest "k" "id1" 0 (Except.ok "sess-1") false
      "b").abortCalls = [] ∧
    (initiate_upload 7 demoRequest "k" "id1" 0 (Except.ok "sess-1") false
      "b").record = none :=
  ⟨(C1_no_abort 7 demoRequest "k" "id1" 0 (Except.ok "sess-1") false
      "b").1,
   ((C1_no_abort 7 demoRequest "k" "id1" 0 (Except.ok "sess-1") false
      "b").2 (by decide) "sess-1").1⟩

/-- C2 as stated is false: submitting parts `[{2,"e2"},{1,"e1"}]` reaches
the backend exactly in that order — the view performs no sort, so the
backend does not receive `[{1,"e1"},{2,"e2"}]`. -/
theorem C2_counterexample :
    (complete_upload demoRecord 7 [⟨2, "e2"⟩, ⟨1, "e1"⟩] (Except.ok ())
      5).completeCalls = [("k", "sess-1", [(2, "e2"), (1, "e1")])] ∧
    ¬ (complete_upload demoRecord 7 [⟨2, "e2"⟩, ⟨1, "e1"⟩] (Except.ok ())
      5).completeCalls = [("k", "sess-1", [(1, "e1"), (2, "e2")])] := by
  decide

/-- C2 amended: for every accepted parts list, `complete_upload` passes
the parts to the storage client's `complete_multipart` in the caller's
submission order, unsorted. -/
theorem C2_submission_order (v : VideoUpload) (user : Nat)
    (parts_in : List PartIn) (sc : Except String Unit) (now : Nat)
    (hown : v.uploader = user)
    (hvalid : parts_in.all chunkSerializerValid = true)
    (hne : parts_in ≠ []) :
    (complete_upload v user parts_in sc now).completeCalls
      = [(v.object_key, v.upload_id,
          parts_in.map fun p => (p.part_number, p.etag))] := by
  rw [complete_upload_run v user parts_in sc now hown hvalid hne,
    ← buildParts_of_valid parts_in hvalid]
  cases sc <;> rfl

/-- Witness for C2 amended at the out-of-order concrete parts list. -/
theorem C2_witness :
    (complete_upload demoRecord 7 [⟨2, "e2"⟩, ⟨1, "e1"⟩] (Except.ok ())
      5).completeCalls
      = [("k", "sess-1",
          [⟨2, "e2"⟩, ⟨1, "e1"⟩].map fun p : PartIn =>
            (p.part_number, p.etag))] :=
  C2_submission_order demoRecord 7 [⟨2, "e2"⟩, ⟨1, "e1"⟩] (Except.ok ()) 5
    rfl (by decide) (by decide)

/-- C3 as stated is false: `complete_upload` consults the record's status
nowhere, so a `failed` record transitions to `completed` when the storage
call succeeds, and a `completed` record transitions to `failed` when it
raises — no fresh initiate involved. -/
theorem C3_counterexample :
    (complete_upload { demoRecord with status := Status.failed } 7
      [⟨1, "e1"⟩] (Except.ok ()) 5).record.status = Status.completed ∧
    (complete_upload { demoRecord with status := Status.completed } 7
      [⟨1, "e1"⟩] (Except.error "boom") 5).record.status
      = Status.failed := by
  decide

/-- C3 amended: `get_presigned_urls` never changes any record, but
`complete_upload` has no status guard — for an owner with a valid parts
list it drives any record, whatever its current status (`completed` and
`failed` included), to `completed` on storage success and to `failed` on
storage failure. -/
theorem C3_no_status_guard (v : VideoUpload) (user : Nat) (pns : List Int)
    (urls : Int → Except String String) (parts_in : List PartIn)
    (e : String) (now : Nat) (hown : v.uploader = user)
    (hvalid : parts_in.all chunkSerializerValid = true)
    (hne : parts_in ≠ []) :
    (get_presigned_urls v user pns urls).record = v ∧
    (complete_upload v user parts_in (Except.ok ()) now).record.status
      = Status.completed ∧
    (complete_upload v user parts_in (Except.error e) now).record.status
      = Status.failed := by
  refine ⟨get_presigned_urls_record v user pns urls, ?_, ?_⟩
  · rw [complete_upload_run v user parts_in (Except.ok ()) now hown hvalid
      hne]
  · rw [complete_upload_run v user parts_in (Except.error e) now hown
      hvalid hne]

/-- Witness for C3 amended on concrete `failed` and `completed` records. -/
theorem C3_witness :
    (get_presigned_urls { demoRecord with status := Status.failed } 7 [1]
      (fun _ => Except.ok "u")).record
      = { demoRecord with status := Status.failed } ∧
    (complete_upload { demoRecord with status := Status.failed } 7
      [⟨1, "e1"⟩] (Except.ok ()) 5).record.status = Status.completed ∧
    (complete_upload { demoRecord with status := Status.failed } 7
      [⟨1, "e1"⟩] (Except.error "boom") 5).record.status
      = Status.failed :=
  C3_no_status_guard { demoRecord with status := Status.failed } 7 [1]
    (fun _ => Except.ok "u") [⟨1, "e1"⟩] "boom" 5 rfl (by decide)
    (by decide)

/-- C4 as stated is false: `get_presigned_urls` has no status check — on a
`completed` record the owner still receives presigned URLs, and the
storage signing client is invoked. -/
theorem C4_counterexample :
    (get_presigned_urls { demoRecord with status := Status.completed } 7
      [1] (fun _ => Except.ok "u")).result
      = PresignResult.ok [(1, "u")] ∧
    (get_presigned_urls { demoRecord with status := Status.completed } 7
      [1] (fun _ => Except.ok "u")).presignCalls = [1] := by
  decide

/-- C4 amended: `get_presigned_urls` performs no status check at all: for
a record in any status (including `completed`), an owner request with a
non-empty `part_numbers` list succeeds whenever the signing calls do,
returning the requested `(part_number, url)` pairs in request order. -/
theorem C4_no_status_check (v : VideoUpload) (user : Nat) (pns : List Int)
    (u : Int → String) (hown : v.uploader = user) (hne : pns ≠ []) :
    (get_presigned_urls v user pns fun p => Except.ok (u p)).result
      = PresignResult.ok (pns.map fun p => (p, u p)) ∧
    (get_presigned_urls v user pns
      fun p => Except.ok (u p)).presignCalls = pns := by
  have hemp : pns.isEmpty = false := by
    cases pns
    · exact absurd rfl hne
    · rfl
  unfold get_presigned_urls
  rw [if_neg (by simp [hown]), if_neg (by simp [hemp]), presignLoop_ok]
  exact ⟨rfl, rfl⟩

/-- Witness for C4 amended on a concrete completed record. -/
theorem C4_witness :
    (get_presigned_urls { demoRecord with status := Status.completed } 7
      [1, 3] fun p => Except.ok (toString p)).result
      = PresignResult.ok ([1, 3].map fun p : Int => (p, toString p)) ∧
    (get_presigned_urls { demoRecord with status := Status.completed } 7
      [1, 3] fun p => Except.ok (toString p)).presignCalls = [1, 3] :=
  C4_no_status_check { demoRecord with status := Status.completed } 7
    [1, 3] (fun p => toString p) rfl (by decide)

/-- C5: When the storage backend's `initiate_multipart` raises, no
`UploadRecord` is persisted: `initiate_upload` reaches the storage call
before `VideoUpload.objects.create`, so the `except` handler returns with
`record = none` on every such path. -/
theorem C5_storage_failure_no_record (user : Nat) (req : InitiateRequest)
    (key id : String) (t : Nat) (e : String) (persist_ok : Bool)
    (bucket : String) :
    (initiate_upload user req key id t (Except.error e) persist_ok
      bucket).record = none := by
  unfold initiate_upload
  split
  · rfl
  · split <;> rfl

/-- C9: A caller who is not the record's owner gets `Forbidden` from both
`get_presigned_urls` and `complete_upload`; the record is untouched and no
storage-client call (presign or complete) is issued. -/
theorem C9_forbidden_no_side_effects (v : VideoUpload) (user : Nat)
    (pns : List Int) (f : Int → Except String String)
    (parts_in : List PartIn) (sc : Except String Unit) (now : Nat)
    (h : v.uploader ≠ user) :
    (get_presigned_urls v user pns f).result = PresignResult.forbidden ∧
    (get_presigned_urls v user pns f).record = v ∧
    (get_presigned_urls v user pns f).presignCalls = [] ∧
    (complete_upload v user parts_in sc now).result
      = CompleteResult.forbidden ∧
    (complete_upload v user parts_in sc now).record = v ∧
    (complete_upload v user parts_in sc now).completeCalls = [] := by
  unfold get_presigned_urls complete_upload
  simp [h]

/-- Witness for C9 at a concrete non-owner caller. -/
theorem C9_witness :
    (get_presigned_urls demoRecord 8 [1] (fun _ => Except.ok "u")).result
      = PresignResult.forbidden ∧
    (get_presigned_urls demoRecord 8 [1] (fun _ => Except.ok "u")).record
      = demoRecord ∧
    (get_presigned_urls demoRecord 8 [1]
      (fun _ => Except.ok "u")).presignCalls = [] ∧
    (complete_upload demoRecord 8 [⟨1, "e1"⟩] (Except.ok ()) 5).result
      = CompleteResult.forbidden ∧
    (complete_upload demoRecord 8 [⟨1, "e1"⟩] (Except.ok ()) 5).record
      = demoRecord ∧
    (complete_upload demoRecord 8 [⟨1, "e1"⟩]
      (Except.ok ()) 5).completeCalls = [] :=
  C9_forbidden_no_side_effects demoRecord 8 [1] (fun _ => Except.ok "u")
    [⟨1, "e1"⟩] (Except.ok ()) 5 (by decide)

/-- C7: The list queryset is an exact visibility filter: an authenticated
viewer sees precisely their own records plus public ones, an anonymous
viewer precisely the public ones, and a private record of user `a` is
entirely absent from any other user's and from the anonymous result. -/
theorem C7_visibility_filter (db : List VideoUpload) (u : Nat)
    (r : VideoUpload) :
    (r ∈ get_queryset db (some u) ↔
      r ∈ db ∧ (r.uploader = u ∨ r.visibility = Visibility.public)) ∧
    (r ∈ get_queryset db none ↔
      r ∈ db ∧ r.visibility = Visibility.public) ∧
    (∀ a b : Nat, r.uploader = a → a ≠ b →
      r.visibility = Visibility.«private» →
      r ∉ get_queryset db (some b) ∧ r ∉ get_queryset db none) := by
  refine ⟨?_, ?_, ?_⟩
  · simp [get_queryset, List.mem_filter]
  · simp [get_queryset, List.mem_filter]
  · intro a b ha hab hvis
    constructor
    · intro hmem
      simp [get_queryset, List.mem_filter] at hmem
      rcases hmem.2 with h | h
      · exact hab (ha ▸ h)
      · rw [hvis] at h
        exact absurd h (by decide)
    · intro hmem
      simp [get_queryset, List.mem_filter] at hmem
      rw [hvis] at hmem
      exact absurd hmem.2 (by decide)

/-- Witness for C7: the private `demoRecord` of user 7 is present in its
own list result and absent from user 8's and from the anonymous result. -/
theorem C7_witness :
    demoRecord ∈ get_queryset [demoRecord] (some 7) ∧
    demoRecord ∉ get_queryset [demoRecord] (some 8) ∧
    demoRecord ∉ get_queryset [demoRecord] none :=
  ⟨(C7_visibility_filter [demoRecord] 7 demoRecord).1.2
      ⟨by simp, Or.inl rfl⟩,
   ((C7_visibility_filter [demoRecord] 8 demoRecord).2.2 7 8 rfl
      (by decide) rfl).1,
   ((C7_visibility_filter [demoRecord] 8 demoRecord).2.2 7 8 rfl
      (by decide) rfl).2⟩

/-- C10: Every entry of a list response (and hence of a retrieve response,
which serializes one record with the same `VideoUploadSerializer`) carries
exactly the `Meta.fields` of the serializer, and in particular never
exposes `object_key`, `bucket_name`, `upload_id` or `mime_type`. -/
theorem C10_response_fields (db : List VideoUpload) (viewer : Option Nat)
    (username : Nat → String) (e : List (String × JsonValue))
    (he : e ∈ list_response db viewer username) :
    e.map Prod.fst = serializer_fields ∧
    "object_key" ∉ e.map Prod.fst ∧
    "bucket_name" ∉ e.map Prod.fst ∧
    "upload_id" ∉ e.map Prod.fst ∧
    "mime_type" ∉ e.map Prod.fst := by
  obtain ⟨v, _, rfl⟩ := List.mem_map.1 he
  have hf : (VideoUploadSerializer v username).map Prod.fst
      = serializer_fields := rfl
  refine ⟨hf, ?_, ?_, ?_, ?_⟩ <;> rw [hf] <;> decide

/-- `total_chunks` is Mathlib's ceiling division by `chunk_size`. -/
lemma total_chunks_eq_ceilDiv (n : ℕ) :
    total_chunks n = n ⌈/⌉ chunk_size :=
  (Nat.ceilDiv_eq_add_pred_div n chunk_size).symm

/-- `total_chunks n` is the exact rational ceiling `⌈n / chunk_size⌉`. -/
lemma total_chunks_eq_ceil (n : ℕ) :
    (total_chunks n : ℤ) = ⌈(n : ℚ) / (chunk_size : ℚ)⌉ := by
  have hc : 0 < chunk_size := by norm_num [chunk_size]
  have hcq : (0 : ℚ) < (chunk_size : ℚ) := by exact_mod_cast hc
  rw [total_chunks_eq_ceilDiv]
  set q : ℕ := n ⌈/⌉ chunk_size with hq
  apply le_antisymm
  · rcases Nat.eq_zero_or_pos q with h0 | hpos
    · rw [h0]
      exact_mod_cast Int.ceil_nonneg (div_nonneg (by positivity) hcq.le)
    · have hlt : chunk_size * (q - 1) < n := by
        by_contra hle
        push_neg at hle
        have : q ≤ q - 1 := (ceilDiv_le_iff_le_mul hc).2 hle
        omega
      have hltq : ((q : ℚ) - 1) * (chunk_size : ℚ) < (n : ℚ) := by
        have hcast : ((chunk_size * (q - 1) : ℕ) : ℚ) < (n : ℚ) := by
          exact_mod_cast hlt
        calc ((q : ℚ) - 1) * (chunk_size : ℚ)
            = ((q - 1 : ℕ) : ℚ) * (chunk_size : ℚ) := by
              rw [Nat.cast_sub hpos]; push_cast; ring
          _ = ((chunk_size * (q - 1) : ℕ) : ℚ) := by push_cast; ring
          _ < n := hcast
      have hzc : (((q : ℤ) - 1 : ℤ) : ℚ) < (n : ℚ) / (chunk_size : ℚ) := by
        push_cast
        exact (lt_div_iff₀ hcq).2 hltq
      have := Int.lt_ceil.2 hzc
      omega
  · apply Int.ceil_le.2
    rw [div_le_iff₀ hcq]
    have hle : n ≤ chunk_size * q := by
      simpa [smul_eq_mul] using le_smul_ceilDiv (b := n) hc
    calc (n : ℚ) ≤ ((chunk_size * q : ℕ) : ℚ) := by exact_mod_cast hle
      _ = ((q : ℕ) : ℚ) * (chunk_size : ℚ) := by push_cast; ring

/-- A size exactly divisible by the chunk size yields no trailing part. -/
lemma total_chunks_dvd (n : ℕ) (h : n % chunk_size = 0) :
    total_chunks n = n / chunk_size := by
  simp only [total_chunks, chunk_size] at *
  omega

/-- A positive size of at most one chunk yields a single part. -/
lemma total_chunks_small (n : ℕ) (h1 : 1 ≤ n) (h2 : n ≤ chunk_size) :
    total_chunks n = 1 := by
  simp only [total_chunks, chunk_size] at *
  omega

/-- The serializer's `max_value` constant, as an integer. -/
lemma MAX_FILE_SIZE_int : (MAX_FILE_SIZE : Int) = 10737418240 := by
  norm_num [MAX_FILE_SIZE]

/-- For a size in the accepted range, the size-only initiate payload is
serializer-valid. -/
lemma sizeOnlyRequest_valid (f : Int) (h1 : 1 ≤ f)
    (h2 : f ≤ (MAX_FILE_SIZE : Int)) :
    initiateSerializerValid (sizeOnlyRequest f) = true := by
  rw [MAX_FILE_SIZE_int] at h2
  have l1 : ("Demo".length ≤ 200) := by decide
  have l2 : ("clip.mp4".length ≤ 255) := by decide
  have l3 : ("video/mp4".length ≤ 100) := by decide
  simp [initiateSerializerValid, sizeOnlyRequest, allowed_types,
    MAX_FILE_SIZE_int, l1, l2, l3]
  omega

/-- For a size outside the accepted range, the size-only initiate payload
fails serializer validation. -/
lemma sizeOnlyRequest_invalid (f : Int)
    (hbad : f ≤ 0 ∨ (MAX_FILE_SIZE : Int) < f) :
    initiateSerializerValid (sizeOnlyRequest f) = false := by
  rw [MAX_FILE_SIZE_int] at hbad
  simp [initiateSerializerValid, sizeOnlyRequest, allowed_types,
    MAX_FILE_SIZE_int]
  omega

/-- C8: For `file_size` in `(0, 10 GiB]`, initiate answers with the chunk
plan `(chunk_size = 104857600, total_chunks = ⌈file_size / chunk_size⌉)`
— exactly divisible sizes yield `file_size / chunk_size` parts with no
empty trailing part, sizes of at most one chunk yield a single part — and
any `file_size ≤ 0` or above 10 GiB is rejected by validation with no
record persisted and no storage session initiated. -/
theorem C8_chunk_plan (f : Int) (user : Nat) (key id sess bucket : String)
    (t : Nat) (si : Except String String) (persist : Bool) :
    (1 ≤ f → f ≤ (MAX_FILE_SIZE : Int) →
      ((initiate_upload user (sizeOnlyRequest f) key id t (Except.ok sess)
          true bucket).result
        = InitiateResult.ok id sess key chunk_size
            (total_chunks f.toNat) ∧
       chunk_size = 104857600 ∧
       (total_chunks f.toNat : ℤ) = ⌈(f : ℚ) / (chunk_size : ℚ)⌉ ∧
       (f.toNat % chunk_size = 0 →
         total_chunks f.toNat = f.toNat / chunk_size) ∧
       (f ≤ (chunk_size : Int) → total_chunks f.toNat = 1))) ∧
    ((f ≤ 0 ∨ (MAX_FILE_SIZE : Int) < f) →
      initiate_upload user (sizeOnlyRequest f) key id t si persist bucket
        = ⟨InitiateResult.badRequest, none, [], []⟩) := by
  constructor
  · intro h1 h2
    have hv := sizeOnlyRequest_valid f h1 h2
    have hall := initiate_all_check _ hv
    simp only [Bool.and_eq_true, decide_eq_true_iff, ne_eq] at hall
    refine ⟨?_, by norm_num [chunk_size], ?_, total_chunks_dvd f.toNat,
      ?_⟩
    · unfold initiate_upload
      rw [if_neg (by simp [hv]),
        if_neg (by simp only [Bool.and_eq_true, decide_eq_true_iff, ne_eq,
          not_not]; exact hall)]
      rfl
    · have hfq : ((f.toNat : ℕ) : ℚ) = (f : ℚ) := by
        have hnn : ((f.toNat : ℤ)) = f := Int.toNat_of_nonneg (by omega)
        exact_mod_cast hnn
      rw [total_chunks_eq_ceil, hfq]
    · intro hle
      rw [show (chunk_size : Int) = 104857600 from by
        norm_num [chunk_size]] at hle
      refine total_chunks_small f.toNat (by omega) ?_
      simp only [chunk_size]
      omega
  · intro hbad
    have hv := sizeOnlyRequest_invalid f hbad
    unfold initiate_upload
    rw [if_pos (by simp [hv])]

/-- Witness for C8 at the in-range size 250000000 (three chunks) and the
out-of-range size -5 (rejected). -/
theorem C8_witness :
    (initiate_upload 7 (sizeOnlyRequest 250000000) "k" "id1" 0
      (Except.ok "sess-1") true "b").result
      = InitiateResult.ok "id1" "sess-1" "k" chunk_size
          (total_chunks (250000000 : Int).toNat) ∧
    total_chunks (250000000 : Int).toNat = 3 ∧
    initiate_upload 7 (sizeOnlyRequest (-5)) "k" "id1" 0
      (Except.ok "sess-1") true "b"
      = ⟨InitiateResult.badRequest, none, [], []⟩ :=
  ⟨((C8_chunk_plan 250000000 7 "k" "id1" "sess-1" "b" 0
      (Except.ok "sess-1") true).1 (by norm_num)
      (by rw [MAX_FILE_SIZE_int]; norm_num)).1,
   by decide,
   (C8_chunk_plan (-5) 7 "k" "id1" "sess-1" "b" 0
      (Except.ok "sess-1") true).2 (Or.inl (by norm_num))⟩

/-- C6 as stated is false: starting from the record a successful initiate
persists, a successful `complete_upload` followed by a failed one leaves
`status = failed` while `upload_progress = 100` and `completed_at` stay
set from the first completion — the failure path saves the in-memory
record with only `status` changed, breaking the stated equivalence. -/
theorem C6_counterexample :
    (initiate_upload 7 demoRequest "k" "id1" 0 (Except.ok "sess-1") true
      "b").record = some demoRecord ∧
    (runOps demoRecord [Op.complete 7 [⟨1, "e1"⟩] (Except.ok ()) 5,
      Op.complete 7 [⟨1, "e1"⟩] (Except.error "x") 9]).status
      = Status.failed ∧
    (runOps demoRecord [Op.complete 7 [⟨1, "e1"⟩] (Except.ok ()) 5,
      Op.complete 7 [⟨1, "e1"⟩] (Except.error "x") 9]).upload_progress
      = 100 ∧
    (runOps demoRecord [Op.complete 7 [⟨1, "e1"⟩] (Except.ok ()) 5,
      Op.complete 7 [⟨1, "e1"⟩] (Except.error "x") 9]).completed_at
      = some 5 ∧
    ¬ ((runOps demoRecord [Op.complete 7 [⟨1, "e1"⟩] (Except.ok ()) 5,
        Op.complete 7 [⟨1, "e1"⟩] (Except.error "x") 9]).status
        = Status.completed ↔
      ((runOps demoRecord [Op.complete 7 [⟨1, "e1"⟩] (Except.ok ()) 5,
        Op.complete 7 [⟨1, "e1"⟩] (Except.error "x") 9]).upload_progress
          = 100 ∧
       (runOps demoRecord [Op.complete 7 [⟨1, "e1"⟩] (Except.ok ()) 5,
        Op.complete 7 [⟨1, "e1"⟩] (Except.error "x") 9]).completed_at
          ≠ none)) := by
  decide

/-- C6 amended: only the forward half of the invariant holds — every
record persisted by initiate satisfies, and every sequence of orchestrator
operations preserves, `status = completed → progress = 100 ∧ completed_at
set`; the converse direction fails (see the counterexample). -/
theorem C6_completed_forward :
    (∀ (user : Nat) (req : InitiateRequest) (key id : String) (t : Nat)
      (si : Except String String) (p : Bool) (bucket : String)
      (w : VideoUpload),
      (initiate_upload user req key id t si p bucket).record = some w →
      completedInvariant w) ∧
    ∀ (v : VideoUpload) (ops : List Op),
      completedInvariant v → completedInvariant (runOps v ops) := by
  constructor
  · intro user req key id t si p bucket w hw
    unfold initiate_upload at hw
    split at hw
    · simp at hw
    split at hw
    · simp at hw
    split at hw
    · simp at hw
    split at hw
    · simp only [Option.some.injEq] at hw
      intro hc
      rw [← hw] at hc
      simp at hc
    · simp at hw
  · intro v ops hv
    induction ops generalizing v with
    | nil => exact hv
    | cons op rest ih =>
      show completedInvariant (runOps (applyOp v op) rest)
      apply ih
      cases op with
      | presign u pns urls =>
        rw [applyOp, get_presigned_urls_record]
        exact hv
      | complete u ps sc t =>
        rcases complete_upload_record_cases v u ps sc t with h | h | h <;>
          rw [applyOp, h]
        · exact hv
        · intro hc
          simp at hc
        · intro _
          exact ⟨rfl, by simp⟩

/-- Witness for C6 amended: the initiate-persisted record satisfies the
forward invariant, as does its state after a successful completion. -/
theorem C6_witness :
    completedInvariant demoRecord ∧
    completedInvariant (runOps demoRecord
      [Op.complete 7 [⟨1, "e1"⟩] (Except.ok ()) 5]) :=
  ⟨C6_completed_forward.1 7 demoRequest "k" "id1" 0 (Except.ok "sess-1")
      true "b" demoRecord (by decide),
   C6_completed_forward.2 demoRecord
      [Op.complete 7 [⟨1, "e1"⟩] (Except.ok ()) 5]
      (C6_completed_forward.1 7 demoRequest "k" "id1" 0
        (Except.ok "sess-1") true "b" demoRecord (by decide))⟩

/-- Witness for C10 on a concrete database and viewer. -/
theorem C10_witness :
    ((VideoUploadSerializer demoRecord fun _ => "u7").map Prod.fst
        = serializer_fields ∧
      "object_key" ∉ (VideoUploadSerializer demoRecord
        fun _ => "u7").map Prod.fst ∧
      "bucket_name" ∉ (VideoUploadSerializer demoRecord
        fun _ => "u7").map Prod.fst ∧
      "upload_id" ∉ (VideoUploadSerializer demoRecord
        fun _ => "u7").map Prod.fst ∧
      "mime_type" ∉ (VideoUploadSerializer demoRecord
        fun _ => "u7").map Prod.fst) :=
  C10_response_fields [demoRecord] (some 7) (fun _ => "u7")
    (VideoUploadSerializer demoRecord fun _ => "u7")
    (by simp [list_response, get_queryset, List.mem_filter, demoRecord])

end Exweb
